import Mathlib

/-
Verification of the HTTP gateway and agent-invocation adapter in src/main.py
(Flask app forwarding a question to a hosted agent runtime).

The embedding models the pure request/response behaviour of the code:
  - Json: the values request.get_json can produce, with Python truthiness;
  - Event/Content/Part: the event records streamed by the external runtime,
    exactly the fields the collection loop of run_agent_once reads;
  - run_agent_once: the fragment-collection loop (src/main.py lines 130-149),
    as a function of the event sequence the runtime emits;
  - agent_query: the POST /agent/query handler wrapped by require_api_key
    (src/main.py lines 27-37 and 155-174); the external call is a parameter
    that either yields the event list or raises, and the result records the
    question run_agent_once was invoked with (none when it was not invoked);
  - healthz: the GET /healthz handler (src/main.py lines 182-185).
-/

namespace TickerApp

/-- Values produced by parsing a JSON request body in Python. -/
inductive Json where
  | null : Json
  | bool : Bool → Json
  | num : Int → Json
  | str : String → Json
  | arr : List Json → Json
  | obj : List (String × Json) → Json
deriving Repr

/-- Python truthiness of a parsed JSON value. -/
def Json.truthy : Json → Bool
  | .null => false
  | .bool b => b
  | .num n => n != 0
  | .str s => s != ""
  | .arr xs => !xs.isEmpty
  | .obj fs => !fs.isEmpty

/-- Truthiness of an os.environ.get / headers.get result: None and the
empty string are falsy, every other string is truthy. -/
def envTruthy : Option String → Bool
  | none => false
  | some s => s != ""

/-- First-match lookup in the field list of a JSON object (Python dict lookup). -/
def lookupField : List (String × Json) → String → Option Json
  | [], _ => none
  | (k, v) :: rest, key => if k = key then some v else lookupField rest key

/-- Python `body.get(key)`: on a dict it returns the value or None; on any
other object it raises AttributeError. -/
def dictGet : Json → String → Except String Json
  | .obj fs, key => .ok ((lookupField fs key).getD Json.null)
  | _, _ => .error "AttributeError"

/-- Python `request.get_json(silent=True) or \x7b\x7d`: None or a falsy parse
result is replaced by the empty dict. -/
def bodyOrEmpty : Option Json → Json
  | none => Json.obj []
  | some j => if j.truthy then j else Json.obj []

/-- A part of a runtime event content: `text` is None or a string
(src/main.py line 143 reads `getattr(part, "text", None)`). -/
structure Part where
  text : Option String
deriving Repr, DecidableEq

/-- The content of a runtime event: `parts` is None or a list of parts
(src/main.py line 139 reads `getattr(content, "parts", None)`). -/
structure Content where
  parts : Option (List Part)
deriving Repr, DecidableEq

/-- An event streamed by the external runtime: `content` is None or a
Content (src/main.py line 138 reads `getattr(event, "content", None)`). -/
structure Event where
  content : Option Content
deriving Repr, DecidableEq

/-- The texts one event contributes to `text_chunks` in run_agent_once:
skip the event when content is absent or parts is None or empty, then keep
each part's text when it is present and non-empty (src/main.py 138-145). -/
def eventTexts (e : Event) : List String :=
  match e.content with
  | none => []
  | some content =>
    match content.parts with
    | none => []
    | some ps =>
      if ps.isEmpty then []
      else ps.filterMap fun p =>
        match p.text with
        | none => none
        | some txt => if txt = "" then none else some txt

/-- The full `text_chunks` list collected over the event stream, in
emission order (the async-for loop of src/main.py 133-145). -/
def textChunks : List Event → List String
  | [] => []
  | e :: rest => eventTexts e ++ textChunks rest

/-- run_agent_once as a function of the events the runtime emits: joins
the collected chunks with a newline, or returns the sentinel when none
were collected (src/main.py 146-149). -/
def run_agent_once (events : List Event) : String :=
  let text_chunks := textChunks events
  if text_chunks.isEmpty then "(No text response from agent)"
  else String.intercalate "\n" text_chunks

/-- Process configuration read from the environment at startup
(src/main.py lines 18 and 20): None models an unset variable. -/
structure Config where
  API_KEY : Option String
  GOOGLE_AI_API_KEY : Option String
deriving Repr

/-- An inbound POST /agent/query request: the x-api-key header (None when
absent) and the result of request.get_json(silent=True) (None when the
body is missing or unparseable). -/
structure Request where
  x_api_key : Option String
  json_body : Option Json
deriving Repr

/-- An HTTP response: a jsonify body with a status code, a plain-text body
with a status code, or an unhandled Python exception escaping the handler. -/
inductive Resp where
  | jsonR : Nat → Json → Resp
  | textR : Nat → String → Resp
  | pyError : String → Resp
deriving Repr

/-- The POST /agent/query handler wrapped by require_api_key
(src/main.py 27-37 and 155-174). `runtime` stands for the external call
made inside run_agent_once: it either yields the full event stream or
raises. The second component records the question run_agent_once was
invoked with; it is none on every path that returns before the try block. -/
def agent_query (cfg : Config) (req : Request)
    (runtime : Except String (List Event)) : Resp × Option Json :=
  if !envTruthy cfg.API_KEY then
    (.jsonR 500 (.obj [("error", .str "Server API key not configured")]), none)
  else if !envTruthy req.x_api_key || req.x_api_key != cfg.API_KEY then
    (.jsonR 401 (.obj [("error", .str "Unauthorized")]), none)
  else
    match dictGet (bodyOrEmpty req.json_body) "question" with
    | .error e => (.pyError e, none)
    | .ok question =>
      if !question.truthy then
        (.jsonR 400 (.obj [("error", .str "Missing \x27question\x27 in JSON body")]), none)
      else if !envTruthy cfg.GOOGLE_AI_API_KEY then
        (.jsonR 500 (.obj [("error", .str "Env var \"GOOGLE_AI_API_KEY\" is not set")]), none)
      else
        match runtime with
        | .error _ =>
          (.jsonR 500 (.obj [("error", .str "Agent execution failed")]), some question)
        | .ok events =>
          (.jsonR 200 (.obj [("question", question),
            ("answer", .str (run_agent_once events))]), some question)

/-- The GET /healthz handler (src/main.py 182-185): ignores the request
entirely and returns the plain string "ok" with status 200. -/
def healthz (_req : Request) : Resp := .textR 200 "ok"

/-- An event stream in which each fragment arrives as one event carrying
one part whose text is that fragment (the stubbed-runtime shape used by
the spec's fragment tests). -/
def fragmentEvents (ts : List String) : List Event :=
  ts.map fun t => ⟨some ⟨some [⟨some t⟩]⟩⟩

/-- Helper: the collection loop applied to a stream of one-part events
with non-empty texts recovers exactly the fragment list, in order. -/
theorem textChunks_fragmentEvents (ts : List String) (h : ∀ t ∈ ts, t ≠ "") :
    textChunks (fragmentEvents ts) = ts := by
  induction ts with
  | nil => rfl
  | cons t rest ih =>
    have ht : t ≠ "" := h t (List.mem_cons_self t rest)
    have hrest : ∀ u ∈ rest, u ≠ "" := fun u hu => h u (List.mem_cons_of_mem t hu)
    have ih' := ih hrest
    simp only [fragmentEvents] at ih' ⊢
    simp [textChunks, eventTexts, ht, ih']

/-- C1: for a request that passes authentication and validation (server key
configured, client key matching, truthy question, runtime credential set),
any exception e raised by the agent invocation produces HTTP 500 with body
error = "Agent execution failed"; the response is the same constant for
every e, so the exception detail never appears in the body. -/
theorem agent_query_exception_opaque (cfg : Config) (req : Request)
    (e : String) (q : Json)
    (hsrv : envTruthy cfg.API_KEY = true)
    (hkey : req.x_api_key = cfg.API_KEY)
    (hq : dictGet (bodyOrEmpty req.json_body) "question" = .ok q)
    (hqt : q.truthy = true)
    (hg : envTruthy cfg.GOOGLE_AI_API_KEY = true) :
    (agent_query cfg req (.error e)).1
      = .jsonR 500 (.obj [("error", .str "Agent execution failed")]) := by
  simp [agent_query, hsrv, hkey, hq, hqt, hg]

/-- Witness for C1 at a concrete configured server, matching key, question
"ping" and exception detail "boom". -/
theorem agent_query_exception_opaque_witness :
    (agent_query ⟨some "k", some "g"⟩
        ⟨some "k", some (.obj [("question", .str "ping")])⟩ (.error "boom")).1
      = .jsonR 500 (.obj [("error", .str "Agent execution failed")]) :=
  agent_query_exception_opaque ⟨some "k", some "g"⟩
    ⟨some "k", some (.obj [("question", .str "ping")])⟩ "boom" (.str "ping")
    rfl rfl rfl rfl rfl

/-- C2: run_agent_once collects the textual fragments in emission order and
joins them with a newline separator; in particular, for a runtime emitting
exactly "A" then "B", the answer equals "A\n" followed by "B". -/
theorem run_agent_once_joins_with_newline (ts : List String)
    (hne : ts ≠ []) (hfrag : ∀ t ∈ ts, t ≠ "") :
    run_agent_once (fragmentEvents ts) = String.intercalate "\n" ts ∧
    run_agent_once (fragmentEvents ["A", "B"]) = "A\nB" := by
  refine ⟨?_, rfl⟩
  have h := textChunks_fragmentEvents ts hfrag
  simp [run_agent_once, h, hne]

/-- Witness for C2 at the fragment list ["A", "B"]. -/
theorem run_agent_once_joins_with_newline_witness :
    (["A", "B"] : List String) ≠ [] ∧
    (run_agent_once (fragmentEvents ["A", "B"]) = String.intercalate "\n" ["A", "B"] ∧
     run_agent_once (fragmentEvents ["A", "B"]) = "A\nB") :=
  ⟨by decide, run_agent_once_joins_with_newline ["A", "B"] (by decide) (by decide)⟩

/-- C3: when the runtime emits no textual fragment, run_agent_once returns
exactly the sentinel "(No text response from agent)", and POST /agent/query
with a valid key and question "ping" then returns HTTP 200 with the question
echoed and the sentinel as the answer. -/
theorem run_agent_once_sentinel (events : List Event) (k g : String)
    (hempty : textChunks events = []) (hk : k ≠ "") (hg : g ≠ "") :
    run_agent_once events = "(No text response from agent)" ∧
    (agent_query ⟨some k, some g⟩
        ⟨some k, some (.obj [("question", .str "ping")])⟩ (.ok events)).1
      = .jsonR 200 (.obj [("question", .str "ping"),
          ("answer", .str "(No text response from agent)")]) := by
  have hans : run_agent_once events = "(No text response from agent)" := by
    simp [run_agent_once, hempty]
  refine ⟨hans, ?_⟩
  simp [agent_query, envTruthy, hk, hg, bodyOrEmpty, Json.truthy, dictGet,
    lookupField, hans]

/-- Witness for C3 at an empty event stream and concrete keys. -/
theorem run_agent_once_sentinel_witness :
    textChunks [] = [] ∧ ("k" : String) ≠ "" ∧ ("g" : String) ≠ "" ∧
    (run_agent_once [] = "(No text response from agent)" ∧
     (agent_query ⟨some "k", some "g"⟩
         ⟨some "k", some (.obj [("question", .str "ping")])⟩ (.ok [])).1
       = .jsonR 200 (.obj [("question", .str "ping"),
           ("answer", .str "(No text response from agent)")])) :=
  ⟨rfl, by decide, by decide,
    run_agent_once_sentinel [] "k" "g" rfl (by decide) (by decide)⟩

/-- C4: with the server secret configured, a request whose x-api-key header
is absent or differs from the secret gets HTTP 401 with body error =
"Unauthorized", and the wrapped handler never runs: the full result is this
constant, independent of the body and the runtime, with no agent invocation
recorded. -/
theorem agent_query_unauthorized (cfg : Config) (req : Request)
    (runtime : Except String (List Event))
    (hsrv : envTruthy cfg.API_KEY = true)
    (hbad : req.x_api_key = none ∨ req.x_api_key ≠ cfg.API_KEY) :
    agent_query cfg req runtime
      = (.jsonR 401 (.obj [("error", .str "Unauthorized")]), none) := by
  have hcond : (!envTruthy req.x_api_key || req.x_api_key != cfg.API_KEY) = true := by
    rcases hbad with h | h
    · simp [h, envTruthy]
    · simp [bne_iff_ne, h]
  simp [agent_query, hsrv, hcond]

/-- Witness for C4 at a configured server and a mismatched client key. -/
theorem agent_query_unauthorized_witness :
    envTruthy (Config.mk (some "k") (some "g")).API_KEY = true ∧
    agent_query ⟨some "k", some "g"⟩
        ⟨some "wrong", some (.obj [("question", .str "ping")])⟩ (.ok [])
      = (.jsonR 401 (.obj [("error", .str "Unauthorized")]), none) :=
  ⟨rfl, agent_query_unauthorized ⟨some "k", some "g"⟩
    ⟨some "wrong", some (.obj [("question", .str "ping")])⟩ (.ok [])
    rfl (Or.inr (by decide))⟩

/-- C5: when the server shared secret is unset or empty, every request gets
HTTP 500 with body error = "Server API key not configured", whatever the
x-api-key header, body and runtime are, and the handler never runs. -/
theorem agent_query_server_key_missing (cfg : Config) (req : Request)
    (runtime : Except String (List Event))
    (hsrv : cfg.API_KEY = none ∨ cfg.API_KEY = some "") :
    agent_query cfg req runtime
      = (.jsonR 500 (.obj [("error", .str "Server API key not configured")]), none) := by
  have h : envTruthy cfg.API_KEY = false := by
    rcases hsrv with h | h <;> simp [h, envTruthy]
  simp [agent_query, h]

/-- Witness for C5 with the server secret unset and a client key present. -/
theorem agent_query_server_key_missing_witness :
    ((Config.mk none (some "g")).API_KEY = none ∨
      (Config.mk none (some "g")).API_KEY = some "") ∧
    agent_query ⟨none, some "g"⟩
        ⟨some "anything", some (.obj [("question", .str "ping")])⟩ (.ok [])
      = (.jsonR 500 (.obj [("error", .str "Server API key not configured")]), none) :=
  ⟨Or.inl rfl, agent_query_server_key_missing ⟨none, some "g"⟩
    ⟨some "anything", some (.obj [("question", .str "ping")])⟩ (.ok []) (Or.inl rfl)⟩

/-- C6: an authenticated request whose JSON-object body has no "question"
field gets HTTP 400 with body error = "Missing 'question' in JSON body",
independently of the runtime, and the agent is not invoked. -/
theorem agent_query_missing_question (cfg : Config) (req : Request)
    (fields : List (String × Json)) (runtime : Except String (List Event))
    (hsrv : envTruthy cfg.API_KEY = true)
    (hkey : req.x_api_key = cfg.API_KEY)
    (hbody : req.json_body = some (.obj fields))
    (hnoq : lookupField fields "question" = none) :
    agent_query cfg req runtime
      = (.jsonR 400 (.obj [("error", .str "Missing \x27question\x27 in JSON body")]), none) := by
  have hq : dictGet (bodyOrEmpty req.json_body) "question" = .ok Json.null := by
    rw [hbody]
    simp only [bodyOrEmpty]
    split
    · simp [dictGet, hnoq]
    · simp [dictGet, lookupField]
  simp [agent_query, hsrv, hkey, hq, Json.truthy]

/-- Witness for C6 at a body holding only an unrelated field. -/
theorem agent_query_missing_question_witness :
    lookupField [("ticker", Json.str "TSLA")] "question" = none ∧
    agent_query ⟨some "k", some "g"⟩
        ⟨some "k", some (.obj [("ticker", .str "TSLA")])⟩ (.ok [])
      = (.jsonR 400 (.obj [("error", .str "Missing \x27question\x27 in JSON body")]), none) :=
  ⟨rfl, agent_query_missing_question ⟨some "k", some "g"⟩
    ⟨some "k", some (.obj [("ticker", .str "TSLA")])⟩
    [("ticker", Json.str "TSLA")] (.ok []) rfl rfl rfl rfl⟩

/-- C7: an authenticated request with a truthy question, when the
GOOGLE_AI_API_KEY credential is absent, gets HTTP 500 with the
configuration message about the missing env var, the runtime is never
invoked, and that message differs from the execution-error message
"Agent execution failed". -/
theorem agent_query_google_key_missing (cfg : Config) (req : Request)
    (runtime : Except String (List Event)) (q : Json)
    (hsrv : envTruthy cfg.API_KEY = true)
    (hkey : req.x_api_key = cfg.API_KEY)
    (hq : dictGet (bodyOrEmpty req.json_body) "question" = .ok q)
    (hqt : q.truthy = true)
    (hg : cfg.GOOGLE_AI_API_KEY = none) :
    agent_query cfg req runtime
      = (.jsonR 500 (.obj [("error", .str "Env var \"GOOGLE_AI_API_KEY\" is not set")]), none) ∧
    ("Env var \"GOOGLE_AI_API_KEY\" is not set" : String) ≠ "Agent execution failed" := by
  refine ⟨?_, by decide⟩
  have hg' : envTruthy cfg.GOOGLE_AI_API_KEY = false := by simp [hg, envTruthy]
  simp [agent_query, hsrv, hkey, hq, hqt, hg']

/-- Witness for C7 with the runtime credential unset and question "ping". -/
theorem agent_query_google_key_missing_witness :
    dictGet (bodyOrEmpty (some (.obj [("question", .str "ping")]))) "question"
      = .ok (.str "ping") ∧
    (agent_query ⟨some "k", none⟩
        ⟨some "k", some (.obj [("question", .str "ping")])⟩ (.ok [])
      = (.jsonR 500 (.obj [("error", .str "Env var \"GOOGLE_AI_API_KEY\" is not set")]), none) ∧
    ("Env var \"GOOGLE_AI_API_KEY\" is not set" : String) ≠ "Agent execution failed") :=
  ⟨rfl, agent_query_google_key_missing ⟨some "k", none⟩
    ⟨some "k", some (.obj [("question", .str "ping")])⟩ (.ok []) (.str "ping")
    rfl rfl rfl rfl rfl⟩

/-- C8 (amended): GET /healthz returns HTTP 200 for every request,
regardless of headers, but its body is the plain-text string "ok", not a
JSON object with a status field. -/
theorem healthz_always_ok (req : Request) : healthz req = .textR 200 "ok" := rfl

/-- C8 counterexample: at a concrete header-free request the healthz
response is not HTTP 200 with the JSON body status = "ok" that the claim
states; the code returns the bare string "ok" instead. -/
theorem healthz_not_json_counterexample :
    healthz ⟨none, none⟩ ≠ .jsonR 200 (.obj [("status", .str "ok")]) := by
  simp [healthz]

/-- C9 counterexample: an authenticated request whose body parses to the
truthy non-object JSON value given by the one-element array holding 1 does
not get HTTP 400; body.get raises AttributeError, which escapes the
handler unhandled. -/
theorem agent_query_nonobject_counterexample :
    agent_query ⟨some "k", some "g"⟩ ⟨some "k", some (.arr [.num 1])⟩ (.ok [])
      = (.pyError "AttributeError", none) ∧
    Resp.pyError "AttributeError"
      ≠ .jsonR 400 (.obj [("error", .str "Missing \x27question\x27 in JSON body")]) :=
  ⟨rfl, by simp⟩

/-- C9 (amended): for an authenticated request, a body that is missing or
unparseable, or parses to a falsy JSON value, or is a JSON object whose
"question" field is absent or falsy, gets HTTP 400 with body error =
"Missing 'question' in JSON body" and the agent is not invoked (a truthy
non-object body instead escapes as an unhandled AttributeError); and in
every execution run_agent_once is only ever invoked with a truthy
question. -/
theorem agent_query_validation_amended (cfg : Config) (req : Request)
    (runtime : Except String (List Event))
    (hsrv : envTruthy cfg.API_KEY = true)
    (hkey : req.x_api_key = cfg.API_KEY)
    (hbody : req.json_body = none
      ∨ (∃ j, req.json_body = some j ∧ j.truthy = false)
      ∨ (∃ fs, req.json_body = some (.obj fs)
          ∧ ((lookupField fs "question").getD Json.null).truthy = false)) :
    agent_query cfg req runtime
      = (.jsonR 400 (.obj [("error", .str "Missing \x27question\x27 in JSON body")]), none) ∧
    ∀ (cfg' : Config) (req' : Request) (rt' : Except String (List Event)) (q : Json),
      (agent_query cfg' req' rt').2 = some q → q.truthy = true := by
  constructor
  · have : ∃ q, dictGet (bodyOrEmpty req.json_body) "question" = .ok q
        ∧ q.truthy = false := by
      rcases hbody with h | ⟨j, hj, hjf⟩ | ⟨fs, hfs, hfsq⟩
      · exact ⟨Json.null, by simp [h, bodyOrEmpty, dictGet, lookupField], rfl⟩
      · exact ⟨Json.null, by simp [hj, bodyOrEmpty, hjf, dictGet, lookupField], rfl⟩
      · rw [hfs]
        simp only [bodyOrEmpty]
        split
        · exact ⟨_, by simp [dictGet], hfsq⟩
        · exact ⟨Json.null, by simp [dictGet, lookupField], rfl⟩
    obtain ⟨q, hq, hqf⟩ := this
    simp [agent_query, hsrv, hkey, hq, hqf]
  · intro cfg' req' rt' q htrace
    unfold agent_query at htrace
    repeat' split at htrace
    all_goals simp_all

/-- Witness for C9 with an authenticated request whose body is the empty
JSON object. -/
theorem agent_query_validation_amended_witness :
    ((Json.obj []).truthy = false) ∧
    (agent_query ⟨some "k", some "g"⟩ ⟨some "k", some (.obj [])⟩ (.ok [])
      = (.jsonR 400 (.obj [("error", .str "Missing \x27question\x27 in JSON body")]), none) ∧
    ∀ (cfg' : Config) (req' : Request) (rt' : Except String (List Event)) (q : Json),
      (agent_query cfg' req' rt').2 = some q → q.truthy = true) :=
  ⟨rfl, agent_query_validation_amended ⟨some "k", some "g"⟩
    ⟨some "k", some (.obj [])⟩ (.ok []) rfl rfl
    (Or.inr (Or.inl ⟨Json.obj [], rfl, rfl⟩))⟩

/-- C10: authentication precedes body validation: with the server secret
configured and a missing or wrong client key, a request whose JSON-object
body also lacks "question" still gets the 401 Unauthorized response, not
the 400 missing-question response. -/
theorem agent_query_auth_precedes_validation (cfg : Config) (req : Request)
    (fields : List (String × Json)) (runtime : Except String (List Event))
    (hsrv : envTruthy cfg.API_KEY = true)
    (hbad : req.x_api_key = none ∨ req.x_api_key ≠ cfg.API_KEY)
    (hbody : req.json_body = some (.obj fields))
    (hnoq : lookupField fields "question" = none) :
    (agent_query cfg req runtime).1
      = .jsonR 401 (.obj [("error", .str "Unauthorized")]) ∧
    (agent_query cfg req runtime).1
      ≠ .jsonR 400 (.obj [("error", .str "Missing \x27question\x27 in JSON body")]) := by
  have hcond : (!envTruthy req.x_api_key || req.x_api_key != cfg.API_KEY) = true := by
    rcases hbad with h | h
    · simp [h, envTruthy]
    · simp [bne_iff_ne, h]
  constructor
  · simp [agent_query, hsrv, hcond]
  · simp [agent_query, hsrv, hcond]

/-- Witness for C10 with a missing client key and an empty-object body. -/
theorem agent_query_auth_precedes_validation_witness :
    envTruthy (Config.mk (some "k") (some "g")).API_KEY = true ∧
    lookupField ([] : List (String × Json)) "question" = none ∧
    ((agent_query ⟨some "k", some "g"⟩ ⟨none, some (.obj [])⟩ (.ok [])).1
      = .jsonR 401 (.obj [("error", .str "Unauthorized")]) ∧
    (agent_query ⟨some "k", some "g"⟩ ⟨none, some (.obj [])⟩ (.ok [])).1
      ≠ .jsonR 400 (.obj [("error", .str "Missing \x27question\x27 in JSON body")])) :=
  ⟨rfl, rfl, agent_query_auth_precedes_validation ⟨some "k", some "g"⟩
    ⟨none, some (.obj [])⟩ [] (.ok []) rfl (Or.inl rfl) rfl rfl⟩

end TickerApp
